import Mathlib

/-!
Verification of the `ujlaser` laser-control library (`ujlaser/lasercontrol.py`)
against its natural-language specification.

The Python source is shallowly embedded: the `Laser` object together with its
serial link is modelled as an explicit state (`LaserSt`) holding the parameter
cache, a script of queued device responses, and the list of framed command
strings written to the wire.  Python numbers are modelled as `Int`/`ℚ`,
byte strings as `List Nat` (byte values), and Python exceptions as an explicit
`PyExc` sum carried in `Except`.  Python 3 semantics relevant to this code are
modelled faithfully; in particular, comparing an `int` with a `bytes` object
(as in the expression `response[0] == b"?"`, where indexing a `bytes` yields
an `int`) evaluates to `False`.
-/

/-- Byte strings (Python `bytes`) as lists of byte values. -/
abbrev Bytes := List Nat

/-- Dynamically typed Python values as they occur in this module:
integers, floats (modelled as rationals), booleans, strings, bytes. -/
inductive PyVal where
  | vint : Int → PyVal
  | vfloat : ℚ → PyVal
  | vbool : Bool → PyVal
  | vstr : String → PyVal
  | vbytes : Bytes → PyVal
deriving DecidableEq

/-- Numeric value of a Python object, if it is a number
(`bool` is a numeric type in Python: `True == 1`). -/
def pyNumVal : PyVal → Option ℚ
  | .vint n => some (n : ℚ)
  | .vfloat q => some q
  | .vbool b => some (if b then 1 else 0)
  | .vstr _ => none
  | .vbytes _ => none

/-- Python `==`.  Numbers compare numerically across `int`/`float`/`bool`;
values of unrelated types (for example `int` versus `bytes`) compare unequal. -/
def pyEqB (a b : PyVal) : Bool :=
  match a, b with
  | .vint m, .vint n => decide (m = n)
  | .vstr s, .vstr t => decide (s = t)
  | .vbytes s, .vbytes t => decide (s = t)
  | _, _ =>
    match pyNumVal a, pyNumVal b with
    | some x, some y => decide (x = y)
    | _, _ => false

/-- Python exceptions raised by this module. -/
inductive PyExc where
  | connectionError
  | laserCommandError (msg : String)
  | valueError
  | typeError
  | zeroDivisionError
  | attributeError
  | unboundLocalError
  | indexError
deriving DecidableEq

/-- Python `<=` against another value; ordering a string against a number
raises `TypeError` (Python 3). -/
def pyLeB (a b : PyVal) : Except PyExc Bool :=
  match a, b with
  | .vint m, .vint n => .ok (decide (m ≤ n))
  | .vstr s, .vstr t => .ok (decide (s < t ∨ s = t))
  | _, _ =>
    match pyNumVal a, pyNumVal b with
    | some x, some y => .ok (decide (x ≤ y))
    | _, _ => .error .typeError

/-- Python `<`. -/
def pyLtB (a b : PyVal) : Except PyExc Bool :=
  match a, b with
  | .vint m, .vint n => .ok (decide (m < n))
  | .vstr s, .vstr t => .ok (decide (s < t))
  | _, _ =>
    match pyNumVal a, pyNumVal b with
    | some x, some y => .ok (decide (x < y))
    | _, _ => .error .typeError

/-- Python `type(x) == int` (`bool` is a distinct type, so `type(True) == int`
is `False`). -/
def typeIsInt : PyVal → Bool
  | .vint _ => true
  | _ => false

/-- Python `type(x) == float`. -/
def typeIsFloat : PyVal → Bool
  | .vfloat _ => true
  | _ => false

/-- Decimal-free rendering standing in for Python `str` of a float; no theorem
in this file depends on the rendered digits of a float. -/
def floatStr (q : ℚ) : String :=
  toString q.num ++ "/" ++ toString q.den

/-- Python `str` of a value, as used to build command strings. -/
def pyStr : PyVal → String
  | .vint n => toString n
  | .vfloat q => floatStr q
  | .vbool b => if b then "True" else "False"
  | .vstr s => s
  | .vbytes _ => "bytes"

/-- ASCII whitespace bytes stripped by Python `int()`/`float()` conversion. -/
def isSpaceByte (c : Nat) : Bool := c = 32 || (9 ≤ c && c ≤ 13)

/-- ASCII decimal digit. -/
def isDigitByte (c : Nat) : Bool := 48 ≤ c && c ≤ 57

/-- Value of a string of ASCII digits. -/
def digitsToNat (ds : Bytes) : Nat := ds.foldl (fun a c => a * 10 + (c - 48)) 0

/-- Strip leading and trailing ASCII whitespace. -/
def stripBytes (bs : Bytes) : Bytes :=
  ((bs.dropWhile isSpaceByte).reverse.dropWhile isSpaceByte).reverse

/-- Nonempty all-digit run parsed to a natural number. -/
def parseDigits (bs : Bytes) : Option Nat :=
  if bs ≠ [] ∧ bs.all isDigitByte then some (digitsToNat bs) else none

/-- Python `int()` applied to a byte string: optional surrounding whitespace,
optional sign, then a nonempty digit run; anything else raises `ValueError`
(modelled as `none`). -/
def pyIntParse (bs : Bytes) : Option Int :=
  match stripBytes bs with
  | 43 :: r => (parseDigits r).map (fun n => (n : Int))
  | 45 :: r => (parseDigits r).map (fun n => -(n : Int))
  | r => (parseDigits r).map (fun n => (n : Int))

/-- Exponent part of a float literal: optional sign then digits. -/
def parseExp (bs : Bytes) : Option Int :=
  match bs with
  | 43 :: r => (parseDigits r).map (fun n => (n : Int))
  | 45 :: r => (parseDigits r).map (fun n => -(n : Int))
  | r => (parseDigits r).map (fun n => (n : Int))

/-- Unsigned decimal float literal: digits, optional fraction, optional
exponent; at least one digit in the integer or fraction part. -/
def parseUnsignedFloat (bs : Bytes) : Option ℚ :=
  let ip := bs.takeWhile isDigitByte
  let rest := bs.dropWhile isDigitByte
  match rest with
  | [] => if ip = [] then none else some (digitsToNat ip : ℚ)
  | 46 :: r2 =>
    let fp := r2.takeWhile isDigitByte
    let r3 := r2.dropWhile isDigitByte
    if ip = [] ∧ fp = [] then none
    else
      let base : ℚ := (digitsToNat ip : ℚ) + (digitsToNat fp : ℚ) / (10 ^ fp.length)
      match r3 with
      | [] => some base
      | e :: r4 =>
        if e = 101 ∨ e = 69 then (parseExp r4).map (fun k => base * (10 : ℚ) ^ k)
        else none
  | e :: r4 =>
    if ip ≠ [] ∧ (e = 101 ∨ e = 69) then
      (parseExp r4).map (fun k => (digitsToNat ip : ℚ) * (10 : ℚ) ^ k)
    else none

/-- Python `float()` applied to a byte string (decimal literals; the special
forms inf and nan do not occur on this wire protocol). -/
def pyFloatParse (bs : Bytes) : Option ℚ :=
  match stripBytes bs with
  | 43 :: r => parseUnsignedFloat r
  | 45 :: r => (parseUnsignedFloat r).map Neg.neg
  | r => parseUnsignedFloat r

/-- Python `float()` applied to an arbitrary value: numbers convert, strings
parse as float literals (raising `ValueError` on failure), bytes and other
types raise `TypeError`. -/
def pyFloat (v : PyVal) : Except PyExc ℚ :=
  match v with
  | .vint n => .ok (n : ℚ)
  | .vfloat q => .ok q
  | .vbool b => .ok (if b then 1 else 0)
  | .vstr s => match pyFloatParse (s.toList.map Char.toNat) with
    | some q => .ok q
    | none => .error .valueError
  | .vbytes _ => .error .typeError

/-- The `LaserStatusResponse` class of `lasercontrol.py`: eleven boolean
flags decoded from the `SS?` status integer. -/
structure LaserStatusResponse where
  laser_enabled : Bool
  laser_active : Bool
  diode_external_trigger : Bool
  external_interlock : Bool
  resonator_over_temp : Bool
  electrical_over_temp : Bool
  power_failure : Bool
  ready_to_enable : Bool
  ready_to_fire : Bool
  low_power_mode : Bool
  high_power_mode : Bool
deriving DecidableEq

/-- `LaserStatusResponse.__init__`: each flag is `bool(i & mask)` with the
fixed masks 1, 2, 8, 64, 128, 256, 512, 1024, 2048, 4096, 8192. -/
def LaserStatusResponse.ofInt (i : Int) : LaserStatusResponse where
  laser_enabled := decide (Int.land i 1 ≠ 0)
  laser_active := decide (Int.land i 2 ≠ 0)
  diode_external_trigger := decide (Int.land i 8 ≠ 0)
  external_interlock := decide (Int.land i 64 ≠ 0)
  resonator_over_temp := decide (Int.land i 128 ≠ 0)
  electrical_over_temp := decide (Int.land i 256 ≠ 0)
  power_failure := decide (Int.land i 512 ≠ 0)
  ready_to_enable := decide (Int.land i 1024 ≠ 0)
  ready_to_fire := decide (Int.land i 2048 ≠ 0)
  low_power_mode := decide (Int.land i 4096 ≠ 0)
  high_power_mode := decide (Int.land i 8192 ≠ 0)

/-- `LaserStatusResponse.__int__`: accumulate the mask of every set flag. -/
def LaserStatusResponse.toInt (s : LaserStatusResponse) : Int :=
  (if s.laser_enabled then 1 else 0) +
  (if s.laser_active then 2 else 0) +
  (if s.diode_external_trigger then 8 else 0) +
  (if s.external_interlock then 64 else 0) +
  (if s.resonator_over_temp then 128 else 0) +
  (if s.electrical_over_temp then 256 else 0) +
  (if s.power_failure then 512 else 0) +
  (if s.ready_to_enable then 1024 else 0) +
  (if s.ready_to_fire then 2048 else 0) +
  (if s.low_power_mode then 4096 else 0) +
  (if s.high_power_mode then 8192 else 0)

/-- State of a `Laser` object together with its serial link.  `script` is the
queue of device responses the next reads will return (`none` models a read
that timed out with no data); `written` collects the framed command strings
written to the wire, oldest first.  The remaining fields are the instance
attributes set in `Laser.__init__` and mutated by the methods.  The kicker
(`RepeatedTimer` from `ujlaser.repeatedtimer`, not present under `src/`) is
modelled from the spec: a periodic background actor with explicit start and
stop, represented here by the `kickerRunning` flag. -/
structure LaserSt where
  connected : Bool
  script : List (Option Bytes)
  written : List String
  pulseMode : Int
  pulsePeriod : ℚ
  repRate : ℚ
  burstCount : Int
  pulseWidth : ℚ
  diodeTrigger : Int
  burstDuration : ℚ
  emergencyStopActive : Bool
  kickerRunning : Bool
  fireTimer : ℚ
  fireDuration : ℚ
deriving DecidableEq

/-- The success token `b"ok\r\n"`. -/
def okBytes : Bytes := [111, 107, 13, 10]

/-- Python truthiness of a read result: `None` and the empty byte string are
falsy. -/
def respFalsy : Option Bytes → Bool
  | none => true
  | some [] => true
  | some (_ :: _) => false

/-- The check `response[0] == b"?"` as written in the source: indexing a
`bytes` yields an `int`, and comparing an `int` with a `bytes` object is
always `False` in Python 3, so this check never fires on a nonempty
response. -/
def respErrMark : Option Bytes → Bool
  | some (b :: _) => pyEqB (.vint b) (.vbytes [63])
  | _ => false

/-- The comparison `response == b"ok\r\n"` (`None` compares unequal). -/
def respIsOk : Option Bytes → Bool
  | some bs => decide (bs = okBytes)
  | none => false

/-- Rendering of a byte value inside Python `repr` of a `bytes` object. -/
def byteRepr (c : Nat) : String :=
  if c = 13 then "\\r"
  else if c = 10 then "\\n"
  else if c = 9 then "\\t"
  else if c = 92 then "\\\\"
  else if c = 39 then "\\" ++ (Char.ofNat 39).toString
  else if 32 ≤ c ∧ c ≤ 126 then (Char.ofNat c).toString
  else "\\x" ++ (Nat.toDigits 16 c).asString

/-- Python `str` of a `bytes` object, as used in the fallback branch of
`get_error_code_description`. -/
def bytesRepr (bs : Bytes) : String :=
  "b" ++ (Char.ofNat 39).toString ++ String.join (bs.map byteRepr) ++ (Char.ofNat 39).toString

/-- `Laser.get_error_code_description`: map a device error token to a
description; a falsy response maps to the distinct timeout description. -/
def get_error_code_description (code : Option Bytes) : String :=
  if respFalsy code then "No response received from laser in time."
  else match code with
  | some bs =>
    if bs = [63, 49, 13, 10] then "Command not recognized."
    else if bs = [63, 50, 13, 10] then "Missing command keyword."
    else if bs = [63, 51, 13, 10] then "Invalid command keyword."
    else if bs = [63, 52, 13, 10] then "Missing Parameter"
    else if bs = [63, 53, 13, 10] then "Invalid Parameter"
    else if bs = [63, 54, 13, 10] then "Query only. Command needs a question mark."
    else if bs = [63, 55, 13, 10] then "Invalid query. Command does not have a query function."
    else if bs = [63, 56, 13, 10] then "Command unavailable in current system state."
    else "Error description not found, response code given: " ++ bytesRepr bs
  | none => "No response received from laser in time."

/-- `Laser._send_command`: an empty command returns `None` immediately; when
disconnected, raise `ConnectionError`; otherwise write the framed command
`";" + "LA" + ":" + cmd + "\r"` and read the next queued response (an
exhausted script models a read timeout and yields `None`). -/
def sendCommand (st : LaserSt) (cmd : String) : Except PyExc (Option Bytes) × LaserSt :=
  if cmd.length = 0 then (.ok none, st)
  else if ¬st.connected then (.error .connectionError, st)
  else
    let stw := { st with written := st.written ++ [";LA:" ++ cmd ++ "\r"] }
    match stw.script with
    | [] => (.ok none, stw)
    | r :: rest => (.ok r, { stw with script := rest })

/-- `Laser.get_status`: query `SS?`; raise `LaserCommandError` when the
response is falsy or when the (never-firing) error-marker check succeeds;
otherwise drop the final byte, decode, and build a `LaserStatusResponse`
(a non-integer response raises `ValueError` from `int()`). -/
def get_status (st : LaserSt) : Except PyExc LaserStatusResponse × LaserSt :=
  match sendCommand st "SS?" with
  | (.error e, st1) => (.error e, st1)
  | (.ok resp, st1) =>
    if respFalsy resp || respErrMark resp then
      (.error (.laserCommandError (get_error_code_description resp)), st1)
    else
      match resp with
      | some bs =>
        match pyIntParse bs.dropLast with
        | some i => (.ok (LaserStatusResponse.ofInt i), st1)
        | none => (.error .valueError, st1)
      | none => (.error .typeError, st1)

/-- `Laser.get_pulse_mode`: query `PM?` and parse `int(response)`. -/
def get_pulse_mode (st : LaserSt) : Except PyExc Int × LaserSt :=
  match sendCommand st "PM?" with
  | (.error e, st1) => (.error e, st1)
  | (.ok resp, st1) =>
    if respFalsy resp || respErrMark resp then
      (.error (.laserCommandError (get_error_code_description resp)), st1)
    else
      match resp with
      | some bs =>
        match pyIntParse bs with
        | some i => (.ok i, st1)
        | none => (.error .valueError, st1)
      | none => (.error .typeError, st1)

/-- `Laser.get_pulse_period`: query `PE?` and parse `float(response)`. -/
def get_pulse_period (st : LaserSt) : Except PyExc ℚ × LaserSt :=
  match sendCommand st "PE?" with
  | (.error e, st1) => (.error e, st1)
  | (.ok resp, st1) =>
    if respFalsy resp || respErrMark resp then
      (.error (.laserCommandError (get_error_code_description resp)), st1)
    else
      match resp with
      | some bs =>
        match pyFloatParse bs with
        | some q => (.ok q, st1)
        | none => (.error .valueError, st1)
      | none => (.error .typeError, st1)

/-- `Laser.get_diode_trigger`: query `DT?` and parse `int(response)`. -/
def get_diode_trigger (st : LaserSt) : Except PyExc Int × LaserSt :=
  match sendCommand st "DT?" with
  | (.error e, st1) => (.error e, st1)
  | (.ok resp, st1) =>
    if respFalsy resp || respErrMark resp then
      (.error (.laserCommandError (get_error_code_description resp)), st1)
    else
      match resp with
      | some bs =>
        match pyIntParse bs with
        | some i => (.ok i, st1)
        | none => (.error .valueError, st1)
      | none => (.error .typeError, st1)

/-- `Laser.get_pulse_width`: query `DW?` and parse `float(response)`. -/
def get_pulse_width (st : LaserSt) : Except PyExc ℚ × LaserSt :=
  match sendCommand st "DW?" with
  | (.error e, st1) => (.error e, st1)
  | (.ok resp, st1) =>
    if respFalsy resp || respErrMark resp then
      (.error (.laserCommandError (get_error_code_description resp)), st1)
    else
      match resp with
      | some bs =>
        match pyFloatParse bs with
        | some q => (.ok q, st1)
        | none => (.error .valueError, st1)
      | none => (.error .typeError, st1)

/-- `Laser.get_burst_count`: query `BC?`; the source indexes `response[0]`
without a truthiness guard, so a `None` response raises `TypeError` and an
empty response raises `IndexError`; then parse `int(response)`. -/
def get_burst_count (st : LaserSt) : Except PyExc Int × LaserSt :=
  match sendCommand st "BC?" with
  | (.error e, st1) => (.error e, st1)
  | (.ok resp, st1) =>
    match resp with
    | none => (.error .typeError, st1)
    | some [] => (.error .indexError, st1)
    | some (b :: rest) =>
      if pyEqB (.vint b) (.vbytes [63]) then
        (.error (.laserCommandError (get_error_code_description (some (b :: rest)))), st1)
      else
        match pyIntParse (b :: rest) with
        | some i => (.ok i, st1)
        | none => (.error .valueError, st1)

/-- `Laser.get_repetition_rate`: query `RR?`; a falsy response returns `None`
(no exception); otherwise check the (never-firing) error marker and parse
`float(response)`. -/
def get_repetition_rate (st : LaserSt) : Except PyExc (Option ℚ) × LaserSt :=
  match sendCommand st "RR?" with
  | (.error e, st1) => (.error e, st1)
  | (.ok resp, st1) =>
    if respFalsy resp then (.ok none, st1)
    else if respErrMark resp then
      (.error (.laserCommandError (get_error_code_description resp)), st1)
    else
      match resp with
      | some bs =>
        match pyFloatParse bs with
        | some q => (.ok (some q), st1)
        | none => (.error .valueError, st1)
      | none => (.error .typeError, st1)

/-- `Laser.is_armed`: query `EN?`; raise `LaserCommandError` on a falsy
response; otherwise return `response[0]` against the byte string `1` — which compares an `int`
with a `bytes` object and is therefore always `False` in Python 3. -/
def is_armed (st : LaserSt) : Except PyExc Bool × LaserSt :=
  match sendCommand st "EN?" with
  | (.error e, st1) => (.error e, st1)
  | (.ok resp, st1) =>
    if respFalsy resp || respErrMark resp then
      (.error (.laserCommandError (get_error_code_description resp)), st1)
    else
      match resp with
      | some (b :: _) => (.ok (pyEqB (.vint b) (.vbytes [49])), st1)
      | _ => (.error .typeError, st1)

/-- `Laser.arm`: raise `LaserCommandError "Laser already armed"` when
`is_armed()` reports armed; otherwise send `EN 1` and return `True` exactly
on the success token. -/
def arm (st : LaserSt) : Except PyExc Bool × LaserSt :=
  match is_armed st with
  | (.error e, st1) => (.error e, st1)
  | (.ok true, st1) => (.error (.laserCommandError "Laser already armed"), st1)
  | (.ok false, st1) =>
    match sendCommand st1 "EN 1" with
    | (.error e, st2) => (.error e, st2)
    | (.ok resp, st2) =>
      if respIsOk resp then (.ok true, st2)
      else (.error (.laserCommandError (get_error_code_description resp)), st2)

/-- `Laser.disarm`: send `EN 0` and return `True` exactly on the success
token. -/
def disarm (st : LaserSt) : Except PyExc Bool × LaserSt :=
  match sendCommand st "EN 0" with
  | (.error e, st1) => (.error e, st1)
  | (.ok resp, st1) =>
    if respIsOk resp then (.ok true, st1)
    else (.error (.laserCommandError (get_error_code_description resp)), st1)

/-- `Laser.emergency_stop`: sets `emergencyStopActive` and then evaluates
`self.fireThread not in self._threads`.  Neither `fireThread` nor `_threads`
is ever assigned anywhere in the class (or module), so the attribute lookup
`self.fireThread` raises `AttributeError` before any transport I/O. -/
def emergency_stop (st : LaserSt) : Except PyExc Bool × LaserSt :=
  (.error .attributeError, { st with emergencyStopActive := true })

/-- `Laser.fire`: query status, compute the fire duration from the pulse
mode, record it, check the `laser_enabled` and `ready_to_fire` flags, start
the kicker when the duration is at least 3 seconds, then send `FL 1`; on any
response other than the success token, send `FL 0` and raise
`LaserCommandError`.  The kicker is not stopped on that abort path. -/
def fire (st : LaserSt) : Except PyExc Unit × LaserSt :=
  match get_status st with
  | (.error e, st1) => (.error e, st1)
  | (.ok status, st1) =>
    let dur : Except PyExc ℚ :=
      if st1.pulseMode = 0 then
        if st1.repRate = 0 then .error .zeroDivisionError else .ok (1 / st1.repRate)
      else if st1.pulseMode = 1 then
        if st1.repRate = 0 then .error .zeroDivisionError else .ok (1 / st1.repRate)
      else if st1.pulseMode = 2 then
        if st1.repRate = 0 then .error .zeroDivisionError
        else .ok ((st1.burstCount : ℚ) / st1.repRate)
      else .error (.laserCommandError "Invalid pulse mode set for laser!")
    match dur with
    | .error e => (.error e, st1)
    | .ok d =>
      let st2 := { st1 with fireDuration := d }
      if ¬status.laser_enabled then
        (.error (.laserCommandError "Laser not armed!"), st2)
      else if ¬status.ready_to_fire then
        (.error (.laserCommandError "Laser not ready to fire!"), st2)
      else
        let st3 := if d ≥ 3 then { st2 with kickerRunning := true } else st2
        match sendCommand st3 "FL 1" with
        | (.error e, st4) => (.error e, st4)
        | (.ok fireResp, st4) =>
          if ¬respIsOk fireResp then
            match sendCommand st4 "FL 0" with
            | (.error e, st5) => (.error e, st5)
            | (.ok _, st5) =>
              (.error (.laserCommandError (get_error_code_description fireResp)), st5)
          else (.ok (), st4)

/-- `Laser._kicker_callback`: query status inside a `try` that catches only
`LaserCommandError`; the handler sends `FL 0` and stops the kicker, but the
function then falls through to `if not status:` where the local `status` was
never bound, raising `UnboundLocalError`.  A status response that parses
(a `LaserStatusResponse` object) is always truthy, so on the normal path the
handler updates the fire timer or stops the kicker when the session has
ended.  Exceptions other than `LaserCommandError` (for example the
`ValueError` raised by `int()` on a `?`-prefixed response) are not caught. -/
def kicker_callback (st : LaserSt) : Except PyExc Unit × LaserSt :=
  match get_status st with
  | (.error (.laserCommandError _), st1) =>
    match sendCommand st1 "FL 0" with
    | (.error e, st2) => (.error e, st2)
    | (.ok _, st2) => (.error .unboundLocalError, { st2 with kickerRunning := false })
  | (.error e, st1) => (.error e, st1)
  | (.ok status, st1) =>
    if ¬status.laser_active ∧ st1.fireTimer > st1.fireDuration then
      (.ok (), { st1 with kickerRunning := false, fireTimer := 0 })
    else
      (.ok (), { st1 with fireTimer := st1.fireTimer + 1 })

/-- `Laser.set_pulse_mode`: validate `mode in (0,1,2)` and `type(mode) == int`
before any I/O; then send `PM <mode>` and update the cache only on the
success token. -/
def set_pulse_mode (st : LaserSt) (mode : PyVal) : Except PyExc Bool × LaserSt :=
  if ¬(pyEqB mode (.vint 0) || pyEqB mode (.vint 1) || pyEqB mode (.vint 2)) ||
      ¬typeIsInt mode then
    (.error .valueError, st)
  else
    match sendCommand st ("PM " ++ pyStr mode) with
    | (.error e, st1) => (.error e, st1)
    | (.ok resp, st1) =>
      if respIsOk resp then
        match mode with
        | .vint n => (.ok true, { st1 with pulseMode := n })
        | _ => (.ok true, st1)
      else (.error (.laserCommandError (get_error_code_description resp)), st1)

/-- `Laser.set_pulse_period`: no validation is performed (the source carries
TODO notes about missing range restrictions); send `PE <period>` and on the
success token set `pulsePeriod = float(period)` and then
`repRate = 1/period` — the latter raises `ZeroDivisionError` when the period
is zero, after `pulsePeriod` has already been overwritten. -/
def set_pulse_period (st : LaserSt) (period : PyVal) : Except PyExc Bool × LaserSt :=
  match sendCommand st ("PE " ++ pyStr period) with
  | (.error e, st1) => (.error e, st1)
  | (.ok resp, st1) =>
    if respIsOk resp then
      match pyFloat period with
      | .error e => (.error e, st1)
      | .ok q =>
        let st2 := { st1 with pulsePeriod := q }
        match pyNumVal period with
        | none => (.error .typeError, st2)
        | some x =>
          if x = 0 then (.error .zeroDivisionError, st2)
          else (.ok true, { st2 with repRate := 1 / x })
    else (.error (.laserCommandError (get_error_code_description resp)), st1)

/-- `Laser.set_diode_trigger`: validate `trigger != 0 and trigger != 1 or not
type(trigger) == int` before any I/O; then send `DT <trigger>` and update the
cache only on the success token. -/
def set_diode_trigger (st : LaserSt) (trigger : PyVal) : Except PyExc Bool × LaserSt :=
  if (¬pyEqB trigger (.vint 0) && ¬pyEqB trigger (.vint 1)) || ¬typeIsInt trigger then
    (.error .valueError, st)
  else
    match sendCommand st ("DT " ++ pyStr trigger) with
    | (.error e, st1) => (.error e, st1)
    | (.ok resp, st1) =>
      if respIsOk resp then
        match trigger with
        | .vint n => (.ok true, { st1 with diodeTrigger := n })
        | _ => (.ok true, st1)
      else (.error (.laserCommandError (get_error_code_description resp)), st1)

/-- `Laser.set_pulse_width`: validate `type(width) != int and type(width) !=
float or width <= 0` (the type test short-circuits, so the comparison never
sees a non-number); coerce to float; send `DW <width>` and update the cache
only on the success token. -/
def set_pulse_width (st : LaserSt) (width : PyVal) : Except PyExc Bool × LaserSt :=
  if ¬typeIsInt width && ¬typeIsFloat width then (.error .valueError, st)
  else
    match pyNumVal width with
    | none => (.error .typeError, st)
    | some w =>
      if w ≤ 0 then (.error .valueError, st)
      else
        match sendCommand st ("DW " ++ floatStr w) with
        | (.error e, st1) => (.error e, st1)
        | (.ok resp, st1) =>
          if respIsOk resp then (.ok true, { st1 with pulseWidth := w })
          else (.error (.laserCommandError (get_error_code_description resp)), st1)

/-- `Laser.set_burst_count`: the source tests `count <= 0` BEFORE the type
test, so a non-numeric argument raises `TypeError` from the comparison
itself; otherwise validate `type(count) == int`; send `BC <count>`, and on
the success token update `burstCount` and recompute `burstDuration`. -/
def set_burst_count (st : LaserSt) (count : PyVal) : Except PyExc Bool × LaserSt :=
  match pyLeB count (.vint 0) with
  | .error e => (.error e, st)
  | .ok true => (.error .valueError, st)
  | .ok false =>
    if ¬typeIsInt count then (.error .valueError, st)
    else
      match sendCommand st ("BC " ++ pyStr count) with
      | (.error e, st1) => (.error e, st1)
      | (.ok resp, st1) =>
        if respIsOk resp then
          match count with
          | .vint n =>
            if st1.repRate = 0 then (.error .zeroDivisionError, { st1 with burstCount := n })
            else
              (.ok true,
                { st1 with burstCount := n, burstDuration := (n : ℚ) / st1.repRate })
          | _ => (.ok true, st1)
        else (.error (.laserCommandError (get_error_code_description resp)), st1)

/-- `Laser.set_repetition_rate`: validate `not (type(rate) == int or
type(rate) == float) or rate < 1 or rate > 5` before any I/O; send
`RR <rate>`, and on the success token update `repRate` and recompute
`burstDuration`. -/
def set_repetition_rate (st : LaserSt) (rate : PyVal) : Except PyExc Bool × LaserSt :=
  if ¬(typeIsInt rate || typeIsFloat rate) then (.error .valueError, st)
  else
    match pyNumVal rate with
    | none => (.error .typeError, st)
    | some r =>
      if r < 1 then (.error .valueError, st)
      else if r > 5 then (.error .valueError, st)
      else
        match sendCommand st ("RR " ++ pyStr rate) with
        | (.error e, st1) => (.error e, st1)
        | (.ok resp, st1) =>
          if respIsOk resp then
            if r = 0 then (.error .zeroDivisionError, { st1 with repRate := r })
            else
              (.ok true,
                { st1 with repRate := r, burstDuration := (st1.burstCount : ℚ) / r })
          else (.error (.laserCommandError (get_error_code_description resp)), st1)

/-- Disjoint bitwise-or coincides with addition. -/
theorem lor_eq_add_of_land (a : Nat) : ∀ b : Nat, a &&& b = 0 → a ||| b = a + b := by
  induction a using Nat.binaryRec with
  | z => intro b _; simp
  | f c a ih =>
    intro b hb
    induction b using Nat.binaryRec with
    | z => simp
    | f d b _ =>
      rw [Nat.land_bit] at hb
      obtain ⟨h1, h2⟩ := Nat.bit_eq_zero_iff.mp hb
      rw [Nat.lor_bit, ih b h1, Nat.bit_val, Nat.bit_val, Nat.bit_val]
      cases c <;> cases d <;> simp_all <;> omega

/-- Masking one value by two disjoint masks yields disjoint results. -/
theorem and_mask_disjoint (n a b : Nat) (h : a &&& b = 0) : (n &&& a) &&& (n &&& b) = 0 := by
  apply Nat.eq_of_testBit_eq
  intro i
  have ht : (a.testBit i && b.testBit i) = false := by
    have hx := congrArg (fun x => Nat.testBit x i) h
    simp only [Nat.testBit_land, Nat.zero_testBit] at hx
    exact hx
  simp only [Nat.testBit_land, Nat.zero_testBit]
  cases hA : a.testBit i <;> cases hB : b.testBit i <;> simp_all

/-- Sums of maskings by disjoint masks merge into one masking. -/
theorem and_add_and (n a b c : Nat) (h : a &&& b = 0) (hc : a + b = c) :
    (n &&& a) + (n &&& b) = n &&& c := by
  subst hc
  rw [← lor_eq_add_of_land _ _ (and_mask_disjoint n a b h), ← Nat.and_or_distrib_left,
    lor_eq_add_of_land _ _ h]

/-- A conditional power-of-two summand is exactly a one-bit masking. -/
theorem ite_and_pow (n k m : Nat) (hm : 2 ^ k = m) :
    (if n &&& m ≠ 0 then m else 0) = n &&& m := by
  subst hm
  rw [Nat.and_two_pow]
  cases n.testBit k <;> simp

/-- The sum of the eleven conditional status masks equals masking by their
union 16331. -/
theorem encN_eq (n : Nat) :
    (if n &&& 1 ≠ 0 then 1 else 0) + (if n &&& 2 ≠ 0 then 2 else 0) +
    (if n &&& 8 ≠ 0 then 8 else 0) + (if n &&& 64 ≠ 0 then 64 else 0) +
    (if n &&& 128 ≠ 0 then 128 else 0) + (if n &&& 256 ≠ 0 then 256 else 0) +
    (if n &&& 512 ≠ 0 then 512 else 0) + (if n &&& 1024 ≠ 0 then 1024 else 0) +
    (if n &&& 2048 ≠ 0 then 2048 else 0) + (if n &&& 4096 ≠ 0 then 4096 else 0) +
    (if n &&& 8192 ≠ 0 then 8192 else 0) = n &&& 16331 := by
  rw [ite_and_pow n 0 1 (by norm_num), ite_and_pow n 1 2 (by norm_num),
    ite_and_pow n 3 8 (by norm_num), ite_and_pow n 6 64 (by norm_num),
    ite_and_pow n 7 128 (by norm_num), ite_and_pow n 8 256 (by norm_num),
    ite_and_pow n 9 512 (by norm_num), ite_and_pow n 10 1024 (by norm_num),
    ite_and_pow n 11 2048 (by norm_num), ite_and_pow n 12 4096 (by norm_num),
    ite_and_pow n 13 8192 (by norm_num)]
  rw [and_add_and n 1 2 3 (by decide) (by decide),
    and_add_and n 3 8 11 (by decide) (by decide),
    and_add_and n 11 64 75 (by decide) (by decide),
    and_add_and n 75 128 203 (by decide) (by decide),
    and_add_and n 203 256 459 (by decide) (by decide),
    and_add_and n 459 512 971 (by decide) (by decide),
    and_add_and n 971 1024 1995 (by decide) (by decide),
    and_add_and n 1995 2048 4043 (by decide) (by decide),
    and_add_and n 4043 4096 8139 (by decide) (by decide),
    and_add_and n 8139 8192 16331 (by decide) (by decide)]

/-- C7: for every one of the 2048 combinations of the eleven status flags at
bit positions 1,2,8,64,128,256,512,1024,2048,4096,8192, decoding the encoded
integer reproduces the identical flag set: decode(encode(flags)) == flags. -/
theorem status_roundtrip_decode_encode :
    ∀ b1 b2 b3 b4 b5 b6 b7 b8 b9 b10 b11 : Bool,
      LaserStatusResponse.ofInt
        (LaserStatusResponse.toInt ⟨b1, b2, b3, b4, b5, b6, b7, b8, b9, b10, b11⟩) =
        ⟨b1, b2, b3, b4, b5, b6, b7, b8, b9, b10, b11⟩ := by
  decide

/-- C9: for every nonnegative integer n, encoding the status decoded from n
yields n masked to the eleven defined bit positions:
int(LaserStatusResponse(n)) == n & 16331; decode silently discards any bits
outside the defined set. -/
theorem status_encode_after_decode (n : Nat) :
    (LaserStatusResponse.ofInt (n : Int)).toInt = Int.land (n : Int) 16331 := by
  have g1 : Int.land (n : Int) 1 = ((n &&& 1 : Nat) : Int) := rfl
  have g2 : Int.land (n : Int) 2 = ((n &&& 2 : Nat) : Int) := rfl
  have g8 : Int.land (n : Int) 8 = ((n &&& 8 : Nat) : Int) := rfl
  have g64 : Int.land (n : Int) 64 = ((n &&& 64 : Nat) : Int) := rfl
  have g128 : Int.land (n : Int) 128 = ((n &&& 128 : Nat) : Int) := rfl
  have g256 : Int.land (n : Int) 256 = ((n &&& 256 : Nat) : Int) := rfl
  have g512 : Int.land (n : Int) 512 = ((n &&& 512 : Nat) : Int) := rfl
  have g1024 : Int.land (n : Int) 1024 = ((n &&& 1024 : Nat) : Int) := rfl
  have g2048 : Int.land (n : Int) 2048 = ((n &&& 2048 : Nat) : Int) := rfl
  have g4096 : Int.land (n : Int) 4096 = ((n &&& 4096 : Nat) : Int) := rfl
  have g8192 : Int.land (n : Int) 8192 = ((n &&& 8192 : Nat) : Int) := rfl
  have g16331 : Int.land (n : Int) 16331 = ((n &&& 16331 : Nat) : Int) := rfl
  simp only [LaserStatusResponse.ofInt, LaserStatusResponse.toInt, g1, g2, g8, g64, g128,
    g256, g512, g1024, g2048, g4096, g8192, g16331, decide_eq_true_eq, ne_eq,
    Int.natCast_eq_zero]
  rw [← encN_eq n]
  push_cast [apply_ite (fun x : Nat => (x : Int))]
  ring

/-- State of a freshly constructed `Laser()` (constructor defaults), with a
given connection flag and response script.  The attributes `burstDuration`
and `fireDuration` are created lazily in the Python source; they start at 0
here and no theorem depends on their initial values. -/
def initLaser (connected : Bool) (script : List (Option Bytes)) : LaserSt where
  connected := connected
  script := script
  written := []
  pulseMode := 0
  pulsePeriod := 0
  repRate := 1
  burstCount := 10
  pulseWidth := 10
  diodeTrigger := 0
  burstDuration := 0
  emergencyStopActive := false
  kickerRunning := false
  fireTimer := 0
  fireDuration := 0

/-- The device NACK `b"?1\r\n"`. -/
def qmark1 : Bytes := [63, 49, 13, 10]

/-- The `EN?` reply `b"1\r"` of a device reporting itself armed. -/
def armedReply : Bytes := [49, 13]

/-- C1: `emergency_stop()` on a connected laser raises `AttributeError` (the
source reads the never-assigned attribute `fireThread`) before any transport
I/O: the fire-stop command `FL 0` is not issued, nothing is written to the
wire, and no classified error or `True` result is produced, contradicting
the claim that it unconditionally issues fire-stop and fails only on device
rejection. -/
theorem emergency_stop_attribute_error :
    emergency_stop (initLaser true [some okBytes]) =
      (.error .attributeError,
        { initLaser true [some okBytes] with emergencyStopActive := true }) := by
  rfl

/-- C2: a first `arm()` with the device answering the success token returns
`True` after writing `EN?` and `EN 1`; but a second `arm()` with the device
reporting itself armed (`EN?` reply `b"1\r"`) does NOT raise AlreadyArmed:
`is_armed` evaluates `response[0]` against the byte string `1` (an `int` against a `bytes`,
always `False` in Python 3), so the enable command `EN 1` is written to the
wire a second time and `arm()` returns `True` again. -/
theorem arm_twice_sends_enable_twice :
    (arm (initLaser true [some okBytes, some okBytes]) =
      (.ok true,
        { initLaser true [some okBytes, some okBytes] with
          script := [], written := [";LA:EN?\r", ";LA:EN 1\r"] })) ∧
    (arm (initLaser true [some armedReply, some okBytes]) =
      (.ok true,
        { initLaser true [some armedReply, some okBytes] with
          script := [], written := [";LA:EN?\r", ";LA:EN 1\r"] })) := by
  constructor <;> rfl

/-- C3: when the device replies with the error marker `b"?1\r\n"`, every one
of the seven getters raises `ValueError` (from numeric conversion of the
reply), not the classified `LaserCommandError` the claim describes: the
source check `response[0] == b"?"` compares an `int` with a `bytes` object
and never fires in Python 3. -/
theorem getters_value_error_on_error_marker :
    ((get_status (initLaser true [some qmark1])).1 = .error .valueError) ∧
    ((get_pulse_mode (initLaser true [some qmark1])).1 = .error .valueError) ∧
    ((get_pulse_period (initLaser true [some qmark1])).1 = .error .valueError) ∧
    ((get_repetition_rate (initLaser true [some qmark1])).1 = .error .valueError) ∧
    ((get_burst_count (initLaser true [some qmark1])).1 = .error .valueError) ∧
    ((get_pulse_width (initLaser true [some qmark1])).1 = .error .valueError) ∧
    ((get_diode_trigger (initLaser true [some qmark1])).1 = .error .valueError) := by
  refine ⟨rfl, rfl, rfl, rfl, rfl, rfl, rfl⟩

/-- Modelled from the spec: validation rule for pulse mode, which must be one
of the integers 0, 1, 2. -/
def specValidPulseMode : PyVal → Bool
  | .vint n => decide (n = 0 ∨ n = 1 ∨ n = 2)
  | _ => false

/-- Modelled from the spec: validation rule for diode trigger, which must be
the integer 0 or 1. -/
def specValidDiodeTrigger : PyVal → Bool
  | .vint n => decide (n = 0 ∨ n = 1)
  | _ => false

/-- Modelled from the spec: validation rule for pulse width, a positive
number. -/
def specValidPulseWidth : PyVal → Bool
  | .vint n => decide (0 < n)
  | .vfloat q => decide (0 < q)
  | _ => false

/-- Modelled from the spec: validation rule for burst count, a positive
integer. -/
def specValidBurstCount : PyVal → Bool
  | .vint n => decide (0 < n)
  | _ => false

/-- Modelled from the spec: validation rule for repetition rate, a number in
the interval from 1 to 5. -/
def specValidRepRate : PyVal → Bool
  | .vint n => decide (1 ≤ n ∧ n ≤ 5)
  | .vfloat q => decide (1 ≤ q ∧ q ≤ 5)
  | _ => false

/-- Exception kind raised by `set_burst_count` on an invalid argument: the
comparison `count <= 0` raises `TypeError` for non-numeric arguments before
the intended `ValueError` is reached. -/
def burstCountFailKind : PyVal → PyExc
  | .vstr _ => .typeError
  | .vbytes _ => .typeError
  | _ => .valueError

/-- An invalid pulse-mode argument raises `ValueError` before any I/O. -/
theorem set_pulse_mode_invalid (st : LaserSt) (v : PyVal)
    (h : specValidPulseMode v = false) :
    set_pulse_mode st v = (.error .valueError, st) := by
  rcases v with n | q | b | s | bs
  · simp only [specValidPulseMode, decide_eq_false_iff_not] at h
    push_neg at h
    simp [set_pulse_mode, pyEqB, h.1, h.2.1, h.2.2]
  · simp [set_pulse_mode, typeIsInt]
  · simp [set_pulse_mode, typeIsInt]
  · simp [set_pulse_mode, typeIsInt]
  · simp [set_pulse_mode, typeIsInt]

/-- An invalid diode-trigger argument raises `ValueError` before any I/O. -/
theorem set_diode_trigger_invalid (st : LaserSt) (v : PyVal)
    (h : specValidDiodeTrigger v = false) :
    set_diode_trigger st v = (.error .valueError, st) := by
  rcases v with n | q | b | s | bs
  · simp only [specValidDiodeTrigger, decide_eq_false_iff_not] at h
    push_neg at h
    simp [set_diode_trigger, pyEqB, h.1, h.2]
  · simp [set_diode_trigger, typeIsInt]
  · simp [set_diode_trigger, typeIsInt]
  · simp [set_diode_trigger, typeIsInt]
  · simp [set_diode_trigger, typeIsInt]

/-- An invalid pulse-width argument raises `ValueError` before any I/O. -/
theorem set_pulse_width_invalid (st : LaserSt) (v : PyVal)
    (h : specValidPulseWidth v = false) :
    set_pulse_width st v = (.error .valueError, st) := by
  rcases v with n | q | b | s | bs
  · simp only [specValidPulseWidth, decide_eq_false_iff_not] at h
    push_neg at h
    have hq : ((n : ℚ)) ≤ 0 := by exact_mod_cast h
    simp [set_pulse_width, typeIsInt, typeIsFloat, pyNumVal, hq]
  · simp only [specValidPulseWidth, decide_eq_false_iff_not] at h
    push_neg at h
    simp [set_pulse_width, typeIsInt, typeIsFloat, pyNumVal, h]
  · simp [set_pulse_width, typeIsInt, typeIsFloat]
  · simp [set_pulse_width, typeIsInt, typeIsFloat]
  · simp [set_pulse_width, typeIsInt, typeIsFloat]

/-- An invalid repetition-rate argument raises `ValueError` before any I/O. -/
theorem set_repetition_rate_invalid (st : LaserSt) (v : PyVal)
    (h : specValidRepRate v = false) :
    set_repetition_rate st v = (.error .valueError, st) := by
  rcases v with n | q | b | s | bs
  · simp only [specValidRepRate, decide_eq_false_iff_not] at h
    push_neg at h
    rcases lt_or_le n 1 with hn | hn
    · have hq : ((n : ℚ)) < 1 := by exact_mod_cast hn
      simp [set_repetition_rate, typeIsInt, typeIsFloat, pyNumVal, hq]
    · have hn5 : 5 < n := lt_of_not_le (fun hle => absurd hle (by simpa using h hn))
      have hq1 : ¬((n : ℚ)) < 1 := by
        push_neg
        exact_mod_cast le_trans (by norm_num) hn
      have hq5 : (5 : ℚ) < (n : ℚ) := by exact_mod_cast hn5
      simp [set_repetition_rate, typeIsInt, typeIsFloat, pyNumVal, hq1, hq5]
  · simp only [specValidRepRate, decide_eq_false_iff_not] at h
    push_neg at h
    rcases lt_or_le q 1 with hq | hq
    · simp [set_repetition_rate, typeIsInt, typeIsFloat, pyNumVal, hq]
    · have hq5 : 5 < q := lt_of_not_le (fun hle => absurd hle (by simpa using h hq))
      have hq1 : ¬q < 1 := by push_neg; exact hq
      simp [set_repetition_rate, typeIsInt, typeIsFloat, pyNumVal, hq1, hq5]
  · simp [set_repetition_rate, typeIsInt, typeIsFloat]
  · simp [set_repetition_rate, typeIsInt, typeIsFloat]
  · simp [set_repetition_rate, typeIsInt, typeIsFloat]

/-- An invalid burst-count argument raises an exception before any I/O:
`TypeError` for non-numeric arguments, `ValueError` otherwise. -/
theorem set_burst_count_invalid (st : LaserSt) (v : PyVal)
    (h : specValidBurstCount v = false) :
    set_burst_count st v = (.error (burstCountFailKind v), st) := by
  rcases v with n | q | b | s | bs
  · simp only [specValidBurstCount, decide_eq_false_iff_not] at h
    push_neg at h
    simp [set_burst_count, pyLeB, burstCountFailKind, h]
  · rcases le_or_lt q 0 with hq | hq
    · simp [set_burst_count, pyLeB, pyNumVal, burstCountFailKind, hq]
    · have hq0 : ¬q ≤ 0 := by push_neg; exact hq
      simp [set_burst_count, pyLeB, pyNumVal, typeIsInt, burstCountFailKind, hq0]
  · cases b
    · simp [set_burst_count, pyLeB, pyNumVal, burstCountFailKind]
    · rfl
  · simp [set_burst_count, pyLeB, pyNumVal, burstCountFailKind]
  · simp [set_burst_count, pyLeB, pyNumVal, burstCountFailKind]

/-- C4 counterexample: `set_burst_count` applied to the string `"a"` — an
argument violating its positive-integer rule — raises `TypeError` from the
leading comparison `count <= 0`, not the `ValueError` that realises the
claimed ValidationError (no bytes are written on this path either way). -/
theorem set_burst_count_string_type_error :
    specValidBurstCount (.vstr "a") = false ∧
    set_burst_count (initLaser true [some okBytes]) (.vstr "a") =
      (.error .typeError, initLaser true [some okBytes]) := by
  constructor <;> rfl

/-- C4 amended: for the five setters with validation rules (pulse mode, diode
trigger, pulse width, repetition rate, burst count), every argument violating
the rule causes an exception raised before any transport I/O, with the state
— hence the wire — untouched; the exception is `ValueError` in every case
except `set_burst_count` applied to a non-numeric argument, where the
comparison `count <= 0` raises `TypeError`.  `set_pulse_period` performs no
validation and the spec assigns it no range rule. -/
theorem setters_validate_before_io (st : LaserSt) (v : PyVal) :
    (specValidPulseMode v = false → set_pulse_mode st v = (.error .valueError, st)) ∧
    (specValidDiodeTrigger v = false → set_diode_trigger st v = (.error .valueError, st)) ∧
    (specValidPulseWidth v = false → set_pulse_width st v = (.error .valueError, st)) ∧
    (specValidRepRate v = false → set_repetition_rate st v = (.error .valueError, st)) ∧
    (specValidBurstCount v = false →
      set_burst_count st v = (.error (burstCountFailKind v), st)) :=
  ⟨set_pulse_mode_invalid st v, set_diode_trigger_invalid st v,
    set_pulse_width_invalid st v, set_repetition_rate_invalid st v,
    set_burst_count_invalid st v⟩

/-- C4 witness: concrete invalid arguments for each of the five setters. -/
theorem setters_validate_before_io_witness :
    set_pulse_mode (initLaser true []) (.vint 3) = (.error .valueError, initLaser true []) ∧
    set_diode_trigger (initLaser true []) (.vint 2) = (.error .valueError, initLaser true []) ∧
    set_pulse_width (initLaser true []) (.vfloat (-5)) =
      (.error .valueError, initLaser true []) ∧
    set_repetition_rate (initLaser true []) (.vint 6) =
      (.error .valueError, initLaser true []) ∧
    set_burst_count (initLaser true []) (.vstr "b") = (.error .typeError, initLaser true []) :=
  ⟨(setters_validate_before_io (initLaser true []) (.vint 3)).1 rfl,
    (setters_validate_before_io (initLaser true []) (.vint 2)).2.1 rfl,
    (setters_validate_before_io (initLaser true []) (.vfloat (-5))).2.2.1 (by decide),
    (setters_validate_before_io (initLaser true []) (.vint 6)).2.2.2.1 rfl,
    (setters_validate_before_io (initLaser true []) (.vstr "b")).2.2.2.2 rfl⟩

/-- C6: the watchdog tick handler does let errors escape.  With the status
read timing out (`None`), `get_status` raises `LaserCommandError`, the
handler sends `FL 0` and stops the kicker — but then falls through to the
unbound read of `status` and raises `UnboundLocalError` out of the handler.
With a `b"?1\r\n"` reply, `get_status` raises `ValueError`, which the
handler does not catch at all: no `FL 0` is sent and the kicker keeps
running. -/
theorem kicker_callback_propagates_error :
    (kicker_callback { initLaser true [none, some okBytes] with kickerRunning := true } =
      (.error .unboundLocalError,
        { initLaser true [none, some okBytes] with
          script := [], kickerRunning := false, written := [";LA:SS?\r", ";LA:FL 0\r"] })) ∧
    (kicker_callback { initLaser true [some qmark1] with kickerRunning := true } =
      (.error .valueError,
        { initLaser true [some qmark1] with
          script := [], kickerRunning := true, written := [";LA:SS?\r"] })) := by
  constructor <;> rfl

/-- A string of length zero is the empty string. -/
theorem string_length_eq_zero {s : String} (h : s.length = 0) : s = "" := by
  cases s with
  | mk data =>
    cases data with
    | nil => rfl
    | cons c cs => simp [String.length] at h

/-- C8 counterexample: `_send_command` called with the empty command string
while disconnected returns `None` without raising: the length guard returns
before the connection check, refuting the claim for that command string. -/
theorem send_command_empty_disconnected_no_error :
    sendCommand (initLaser false []) "" = (.ok none, initLaser false []) := by
  rfl

/-- C8 amended: for every nonempty command string, `_send_command` while
disconnected raises `ConnectionError` (the NotConnected error) and leaves
the state — hence the wire — untouched; the empty command string instead
returns `None` with no I/O and no error. -/
theorem send_command_disconnected_raises (st : LaserSt) (cmd : String)
    (hne : cmd ≠ "") (hc : st.connected = false) :
    sendCommand st cmd = (.error .connectionError, st) := by
  unfold sendCommand
  rw [if_neg (fun h => hne (string_length_eq_zero h)), if_pos (by simp [hc])]

/-- C8 witness: a concrete nonempty command on a disconnected laser. -/
theorem send_command_disconnected_raises_witness :
    sendCommand (initLaser false []) "FL 0" = (.error .connectionError, initLaser false []) :=
  send_command_disconnected_raises (initLaser false []) "FL 0" (by decide) rfl

/-- Python `float()` agrees with the numeric value on numbers. -/
theorem pyFloat_of_numVal {v : PyVal} {q : ℚ} (hq : pyNumVal v = some q) :
    pyFloat v = .ok q := by
  rcases v with n | x | b | s | bs <;> simp_all [pyNumVal, pyFloat]

/-- Sending a command on a connected laser whose next queued reply is the
success token writes the framed command and returns the token. -/
theorem sendCommand_ok (st : LaserSt) (cmd : String) (r : Option Bytes) (rest : List (Option Bytes))
    (hc : st.connected = true) (hne : cmd ≠ "") (hscript : st.script = r :: rest) :
    sendCommand st cmd =
      (.ok r, { st with script := rest, written := st.written ++ [";LA:" ++ cmd ++ "\r"] }) := by
  unfold sendCommand
  rw [if_neg (fun h => hne (string_length_eq_zero h)), if_neg (by simp [hc])]
  simp [hscript]

/-- C10: when the device acknowledges `set_pulse_period(period)` with the
success token, both cached fields are mutated: `pulsePeriod` becomes
`float(period)` and `repRate` becomes `1/period`; for `period == 0` the
division raises `ZeroDivisionError` after `pulsePeriod` has already been set
to 0.0, leaving the cache changed and `repRate` untouched. -/
theorem set_pulse_period_mutates_cache (st : LaserSt) (v : PyVal) (q : ℚ)
    (hc : st.connected = true) (hq : pyNumVal v = some q)
    (hscript : st.script = [some okBytes]) :
    (q ≠ 0 → set_pulse_period st v =
      (.ok true,
        { st with script := [], pulsePeriod := q, repRate := 1 / q, written := st.written ++ [";LA:PE " ++ pyStr v ++ "\r"] })) ∧
    (q = 0 → set_pulse_period st v =
      (.error .zeroDivisionError,
        { st with script := [], pulsePeriod := 0, written := st.written ++ [";LA:PE " ++ pyStr v ++ "\r"] })) := by
  have hne : ("PE " ++ pyStr v) ≠ "" := by
    intro h
    have hl := congrArg String.length h
    rw [String.length_append, show ("PE ").length = 3 from rfl,
      show ("" : String).length = 0 from rfl] at hl
    omega
  have hsend := sendCommand_ok st ("PE " ++ pyStr v) (some okBytes) [] hc hne hscript
  constructor
  · intro hq0
    simp [set_pulse_period, hsend, respIsOk, pyFloat_of_numVal hq, hq, hq0,
      ← String.append_assoc]
  · intro hq0
    subst hq0
    simp [set_pulse_period, hsend, respIsOk, pyFloat_of_numVal hq, hq,
      ← String.append_assoc]

/-- C10 witness: a device-acknowledged `set_pulse_period` with period 2
updates both cache fields; with period 0 it raises `ZeroDivisionError` after
overwriting `pulsePeriod`. -/
theorem set_pulse_period_mutates_cache_witness :
    set_pulse_period (initLaser true [some okBytes]) (.vint 2) =
      (.ok true,
        { initLaser true [some okBytes] with
          script := [], pulsePeriod := 2, repRate := 1 / 2, written := [";LA:PE 2\r"] }) ∧
    set_pulse_period (initLaser true [some okBytes]) (.vint 0) =
      (.error .zeroDivisionError,
        { initLaser true [some okBytes] with
          script := [], pulsePeriod := 0, written := [";LA:PE 0\r"] }) := by
  constructor
  · have h := (set_pulse_period_mutates_cache (initLaser true [some okBytes]) (.vint 2) 2
      rfl (by decide) rfl).1 (by norm_num)
    simpa using h
  · have h := (set_pulse_period_mutates_cache (initLaser true [some okBytes]) (.vint 0) 0
      rfl (by decide) rfl).2 rfl
    simpa using h

/-- The `SS?` reply `b"2049\r"`: `laser_enabled` and `ready_to_fire` set. -/
def ss2049 : Bytes := [50, 48, 52, 57, 13]

/-- The device NACK `b"?8\r\n"`. -/
def nack8 : Bytes := [63, 56, 13, 10]

/-- General description of the abort path of `fire`: when the status reply
parses and shows an enabled, ready laser, the pulse mode is burst, the
computed duration is at least 3 (so the kicker is started), and the device
NACKs `FL 1`, then `fire` sends `FL 0`, raises the classified error, and the
final state still has the kicker running. -/
theorem fire_abort_run (st : LaserSt) (b : Nat) (bs fr ack : Bytes) (i : Int)
    (hc : st.connected = true)
    (hscript : st.script = [some (b :: bs), some fr, some ack])
    (hparse : pyIntParse (b :: bs).dropLast = some i)
    (hen : (LaserStatusResponse.ofInt i).laser_enabled = true)
    (hrd : (LaserStatusResponse.ofInt i).ready_to_fire = true)
    (hmode : st.pulseMode = 2)
    (hrr : st.repRate ≠ 0)
    (hd : (st.burstCount : ℚ) / st.repRate ≥ 3)
    (hfr : fr ≠ okBytes) :
    fire st =
      (.error (.laserCommandError (get_error_code_description (some fr))),
        { st with script := [], fireDuration := (st.burstCount : ℚ) / st.repRate, kickerRunning := true, written := st.written ++ [";LA:SS?\r", ";LA:FL 1\r", ";LA:FL 0\r"] }) := by
  have hSS := sendCommand_ok st "SS?" (some (b :: bs)) [some fr, some ack] hc (by decide) hscript
  have hget : get_status st =
      (.ok (LaserStatusResponse.ofInt i),
        { st with script := [some fr, some ack], written := st.written ++ [";LA:SS?\r"] }) := by
    unfold get_status
    rw [hSS]
    simp [respFalsy, respErrMark, pyEqB, pyNumVal, hparse]
  have lFL1 : ¬("FL 1" : String).length = 0 := by decide
  have lFL0 : ¬("FL 0" : String).length = 0 := by decide
  unfold fire
  rw [hget]
  simp [sendCommand, hmode, hrr, hen, hrd, hd, respIsOk, hfr, hc, lFL1, lFL0,
    List.append_assoc]

/-- C5 counterexample: a burst-mode firing of duration 10 starts the kicker;
the device NACKs `FL 1`, the code sends `FL 0` and raises the classified
error — but the final state still has `kickerRunning = true`: the watchdog is
NOT stopped on this path, contradicting the claim. -/
theorem fire_abort_leaves_kicker_running :
    fire { initLaser true [some ss2049, some nack8, some okBytes] with pulseMode := 2 } =
      (.error (.laserCommandError (get_error_code_description (some nack8))),
        { initLaser true [some ss2049, some nack8, some okBytes] with
          pulseMode := 2, script := [], fireDuration := 10, kickerRunning := true,
          written := [";LA:SS?\r", ";LA:FL 1\r", ";LA:FL 0\r"] }) := by
  have h := fire_abort_run
    { initLaser true [some ss2049, some nack8, some okBytes] with pulseMode := 2 }
    50 [48, 52, 57, 13] nack8 okBytes 2049 rfl rfl (by decide) (by decide) (by decide)
    rfl (by norm_num [initLaser]) (by norm_num [initLaser]) (by decide)
  simpa [initLaser] using h

/-- C5 amended: whenever the response to `FL 1` is not the success token,
`fire` immediately issues `FL 0` and raises a classified error; but the
watchdog, started because the fire duration was at least 3, is left running
on this path (it only terminates later through its own tick logic). -/
theorem fire_abort_path (st : LaserSt) (b : Nat) (bs fr ack : Bytes) (i : Int)
    (hc : st.connected = true)
    (hscript : st.script = [some (b :: bs), some fr, some ack])
    (hparse : pyIntParse (b :: bs).dropLast = some i)
    (hen : (LaserStatusResponse.ofInt i).laser_enabled = true)
    (hrd : (LaserStatusResponse.ofInt i).ready_to_fire = true)
    (hmode : st.pulseMode = 2)
    (hrr : st.repRate ≠ 0)
    (hd : (st.burstCount : ℚ) / st.repRate ≥ 3)
    (hfr : fr ≠ okBytes) :
    fire st =
      (.error (.laserCommandError (get_error_code_description (some fr))),
        { st with script := [], fireDuration := (st.burstCount : ℚ) / st.repRate, kickerRunning := true, written := st.written ++ [";LA:SS?\r", ";LA:FL 1\r", ";LA:FL 0\r"] }) :=
  fire_abort_run st b bs fr ack i hc hscript hparse hen hrd hmode hrr hd hfr

/-- C5 witness: the abort path at a concrete state and script, with the
device answering `b"?1\r\n"` to the fire command. -/
theorem fire_abort_path_witness :
    fire { initLaser true [some ss2049, some qmark1, some okBytes] with pulseMode := 2 } =
      (.error (.laserCommandError (get_error_code_description (some qmark1))),
        { initLaser true [some ss2049, some qmark1, some okBytes] with
          pulseMode := 2, script := [], fireDuration := 10, kickerRunning := true,
          written := [";LA:SS?\r", ";LA:FL 1\r", ";LA:FL 0\r"] }) := by
  have h := fire_abort_path
    { initLaser true [some ss2049, some qmark1, some okBytes] with pulseMode := 2 }
    50 [48, 52, 57, 13] qmark1 okBytes 2049 rfl rfl (by decide) (by decide) (by decide)
    rfl (by norm_num [initLaser]) (by norm_num [initLaser]) (by decide)
  simpa [initLaser] using h
